import Mathlib

/-!
Verification of the `anne_profiler` repository against its specification.

The repository contains two files:
- `anne_profiler.h`: five C function prototypes (the whole public interface);
- `src/test.c`: an example `main` calling four of them in sequence.

We embed the header as a list of C function declarations, and the example
`main` as a total state-passing function over an arbitrary implementation of
the five operations (the implementation itself is absent from the repository).
Where a claim is about the behaviour of the missing implementation, a
definition modelled from the spec is used and marked as such.
-/

namespace AnneProfiler

/-- The C types appearing in `anne_profiler.h`. -/
inductive CType where
  | c_void
  | c_void_ptr
  | c_char_ptr
  | c_int
deriving DecidableEq

/-- A C function declaration: name, parameter types, return type. -/
structure CFunDecl where
  fname : String
  params : List CType
  ret : CType
deriving DecidableEq

/-- The declaration list of `anne_profiler.h`, line by line:
`void* profiler_init();`
`void profiler_deinit(void *profiler);`
`void* profiler_scope_start(void *profiler, char *name);`
`void profiler_scope_end(void *profiler, void *scope);`
`int profiler_save(void *profiler, char *path);` -/
def anne_profiler_h : List CFunDecl :=
  [ ⟨"profiler_init", [], CType.c_void_ptr⟩,
    ⟨"profiler_deinit", [CType.c_void_ptr], CType.c_void⟩,
    ⟨"profiler_scope_start", [CType.c_void_ptr, CType.c_char_ptr], CType.c_void_ptr⟩,
    ⟨"profiler_scope_end", [CType.c_void_ptr, CType.c_void_ptr], CType.c_void⟩,
    ⟨"profiler_save", [CType.c_void_ptr, CType.c_char_ptr], CType.c_int⟩ ]

/-- Look up a declaration of `anne_profiler.h` by function name. -/
def declOf (n : String) : Option CFunDecl :=
  anne_profiler_h.find? (fun d => d.fname == n)

/-- A call event of the profiler API, recording the function called, the
arguments it received and the value it returned. -/
inductive Event (P : Type) where
  | call_init (ret : P)
  | call_scope_start (profiler : P) (nm : String) (ret : P)
  | call_scope_end (profiler : P) (scope : P)
  | call_deinit (profiler : P)
  | call_save (profiler : P) (path : String) (ret : Int)
deriving DecidableEq

/-- An implementation of the five declared operations: the repository ships
only the prototypes, so the example is interpreted over an arbitrary total
implementation with internal state `S` and opaque handle values `P`. -/
structure ProfilerImpl (S P : Type) where
  profiler_init : S → S × P
  profiler_scope_start : S → P → String → S × P
  profiler_scope_end : S → P → P → S
  profiler_deinit : S → P → S
  profiler_save : S → P → String → S × Int

/-- Result of running the example `main`: the sequence of profiler calls it
made and its integer return value. -/
structure MainResult (P : Type) where
  trace : List (Event P)
  ret : Int
deriving DecidableEq

/-- The example `main` of `src/test.c`, embedded as state passing over an
implementation of the five operations. It receives `argc` and `argv` but
never reads them; it calls `profiler_init`, then `profiler_scope_start` with
the literal name `"test_scope2"`, then `profiler_scope_end` with the returned
scope, then `profiler_deinit`, and returns `0`. -/
def mainRun {S P : Type} (impl : ProfilerImpl S P) (s0 : S)
    (argc : Int) (argv : List String) : S × MainResult P :=
  let (s1, profiler) := impl.profiler_init s0
  let (s2, scope) := impl.profiler_scope_start s1 profiler "test_scope2"
  let s3 := impl.profiler_scope_end s2 profiler scope
  let s4 := impl.profiler_deinit s3 profiler
  (s4,
   { trace := [Event.call_init profiler,
               Event.call_scope_start profiler "test_scope2" scope,
               Event.call_scope_end profiler scope,
               Event.call_deinit profiler],
     ret := 0 })

/-- Whether an event is a call to `profiler_init`. -/
def isInitCall {P : Type} : Event P → Bool
  | Event.call_init _ => true
  | _ => false

/-- Whether an event is a call to `profiler_scope_start`. -/
def isScopeStartCall {P : Type} : Event P → Bool
  | Event.call_scope_start _ _ _ => true
  | _ => false

/-- Whether an event is a call to `profiler_scope_end`. -/
def isScopeEndCall {P : Type} : Event P → Bool
  | Event.call_scope_end _ _ => true
  | _ => false

/-- Whether an event is a call to `profiler_deinit`. -/
def isDeinitCall {P : Type} : Event P → Bool
  | Event.call_deinit _ => true
  | _ => false

/-- Whether an event is a call to `profiler_save`. -/
def isSaveCall {P : Type} : Event P → Bool
  | Event.call_save _ _ _ => true
  | _ => false

/-- The profiler-handle argument an event's call received, if any
(`profiler_init` takes none). -/
def profilerArgOf {P : Type} : Event P → Option P
  | Event.call_init _ => none
  | Event.call_scope_start p _ _ => some p
  | Event.call_scope_end p _ => some p
  | Event.call_deinit p => some p
  | Event.call_save p _ _ => some p

/-- The scope-handle argument an event's call received, if any (only
`profiler_scope_end` takes one). -/
def scopeArgOf {P : Type} : Event P → Option P
  | Event.call_scope_end _ s => some s
  | _ => none

/-- A trivial concrete implementation (state `Unit`, handles `Unit`), used to
evaluate the example at a concrete input. -/
def unitImpl : ProfilerImpl Unit Unit where
  profiler_init := fun s => (s, ())
  profiler_scope_start := fun s _ _ => (s, ())
  profiler_scope_end := fun s _ _ => s
  profiler_deinit := fun s _ => s
  profiler_save := fun s _ _ => (s, 0)

/-- A concrete implementation whose handles are `Option Nat` and whose
`profiler_init` and `profiler_scope_start` both return `none`, modelling an
implementation that returns NULL. -/
def nullImpl : ProfilerImpl Unit (Option Nat) where
  profiler_init := fun s => (s, none)
  profiler_scope_start := fun s _ _ => (s, none)
  profiler_scope_end := fun s _ _ => s
  profiler_deinit := fun s _ => s
  profiler_save := fun s _ _ => (s, 0)

/-- Modelled from the spec: the implementation of the five operations is
absent from the repository (only the prototypes in `anne_profiler.h` and the
example caller exist). A scope, per the spec's data model, is associated with
a name, owned by the profiler that created it, and has a start/end boundary
(`closed`). -/
structure SpecScope where
  sid : Nat
  owner : Nat
  sname : String
  closed : Bool
deriving DecidableEq

/-- Modelled from the spec: the global state of the modelled library, with a
fresh-id counter, the live profiler handles, and the scopes recorded so far. -/
structure SpecState where
  nextId : Nat
  live : List Nat
  scopes : List SpecScope
deriving DecidableEq

/-- Modelled from the spec: `profiler_init` is absent from the repository;
per the spec it creates a profiler handle owning zero scopes. -/
def spec_profiler_init (st : SpecState) : SpecState × Nat :=
  ({ st with nextId := st.nextId + 1, live := st.nextId :: st.live }, st.nextId)

/-- Modelled from the spec: `profiler_scope_start` is absent from the
repository; per the spec it returns an opaque scope handle scoped to the
given profiler and the given name, with no constraint on name uniqueness or
nesting, and the new scope is not yet closed. -/
def spec_profiler_scope_start (st : SpecState) (profiler : Nat) (nm : String) :
    SpecState × Nat :=
  ({ st with nextId := st.nextId + 1,
             scopes := ⟨st.nextId, profiler, nm, false⟩ :: st.scopes },
   st.nextId)

/-- Modelled from the spec: `profiler_scope_end` is absent from the
repository; per the spec it marks the given scope's end boundary, leaving its
identity, owner and name untouched. -/
def spec_profiler_scope_end (st : SpecState) (profiler : Nat) (scope : Nat) :
    SpecState :=
  { st with scopes := st.scopes.map (fun sc =>
      if sc.sid == scope then { sc with closed := true } else sc) }

/-- Modelled from the spec: `profiler_deinit` is absent from the repository;
per the spec it releases the profiler and any scopes it owns. -/
def spec_profiler_deinit (st : SpecState) (profiler : Nat) : SpecState :=
  { st with live := st.live.filter (fun p => p != profiler),
            scopes := st.scopes.filter (fun sc => sc.owner != profiler) }

/-- Modelled from the spec: `profiler_save` is absent from the repository;
per the spec it writes some representation of the recorded scopes to a path
and returns an integer status code, leaving the state unchanged. -/
def spec_profiler_save (st : SpecState) (profiler : Nat) (path : String) :
    SpecState × Int :=
  (st, 0)

/-- The owner recorded for scope handle `s` in state `st`, if `s` is present. -/
def ownerOf (st : SpecState) (s : Nat) : Option Nat :=
  (st.scopes.find? (fun sc => sc.sid == s)).map SpecScope.owner

end AnneProfiler

namespace AnneProfiler

/-- Claim C1: the public interface consists of exactly five functions,
`profiler_init`, `profiler_scope_start`, `profiler_scope_end`,
`profiler_deinit` and `profiler_save`, with the signatures declared in the
header: `profiler_init` takes no arguments and returns an opaque handle
(`void*`), `profiler_scope_start` takes a profiler handle and a name and
returns an opaque scope handle, `profiler_scope_end` takes a profiler handle
and a scope handle and returns nothing, `profiler_deinit` takes a profiler
handle and returns nothing, and `profiler_save` takes a profiler handle and a
path and returns an integer. -/
theorem header_has_exactly_five_declared_functions :
    anne_profiler_h.length = 5 ∧
    anne_profiler_h.map CFunDecl.fname =
      ["profiler_init", "profiler_deinit", "profiler_scope_start",
       "profiler_scope_end", "profiler_save"] ∧
    declOf "profiler_init" = some ⟨"profiler_init", [], CType.c_void_ptr⟩ ∧
    declOf "profiler_scope_start" =
      some ⟨"profiler_scope_start", [CType.c_void_ptr, CType.c_char_ptr], CType.c_void_ptr⟩ ∧
    declOf "profiler_scope_end" =
      some ⟨"profiler_scope_end", [CType.c_void_ptr, CType.c_void_ptr], CType.c_void⟩ ∧
    declOf "profiler_deinit" =
      some ⟨"profiler_deinit", [CType.c_void_ptr], CType.c_void⟩ ∧
    declOf "profiler_save" =
      some ⟨"profiler_save", [CType.c_void_ptr, CType.c_char_ptr], CType.c_int⟩ := by
  decide

/-- Claim C2: `profiler_save` is the only declared operation returning an
integer status code; every other declared operation returns a handle
(`void*`) or nothing (`void`), so no operation other than `profiler_save` has
a visible error signal. -/
theorem profiler_save_is_only_int_returning_operation :
    (anne_profiler_h.all (fun d => (d.ret == CType.c_int) == (d.fname == "profiler_save"))) = true ∧
    (anne_profiler_h.all (fun d =>
      d.fname == "profiler_save" ||
      (d.ret == CType.c_void_ptr || d.ret == CType.c_void))) = true := by
  decide

/-- Claim C3: executing the call sequence of the example, `profiler_init`,
then `profiler_scope_start` on the returned profiler, then
`profiler_scope_end` on that profiler and the returned scope, then
`profiler_deinit` on that profiler, does not crash: for every total
implementation of the operations and every starting state, `main` performs
all four calls and runs to completion, producing a final state and a result. -/
theorem example_main_runs_to_completion {S P : Type}
    (impl : ProfilerImpl S P) (s0 : S) (argc : Int) (argv : List String) :
    ((mainRun impl s0 argc argv).2.trace.length = 4) ∧
    ∃ sF r, mainRun impl s0 argc argv = (sF, r) := by
  exact ⟨rfl, _, _, rfl⟩

/-- Claim C4: the example is strictly sequential: for every implementation
and starting state, the calls occur in the fixed order `profiler_init`,
`profiler_scope_start`, `profiler_scope_end`, `profiler_deinit`, with the
profiler handle returned by `profiler_init` passed to each subsequent call
and the scope handle returned by `profiler_scope_start` passed to
`profiler_scope_end`. -/
theorem example_main_call_order_and_handle_flow {S P : Type}
    (impl : ProfilerImpl S P) (s0 : S) (argc : Int) (argv : List String) :
    ∃ p s,
      p = (impl.profiler_init s0).2 ∧
      s = (impl.profiler_scope_start (impl.profiler_init s0).1 p "test_scope2").2 ∧
      (mainRun impl s0 argc argv).2.trace =
        [Event.call_init p,
         Event.call_scope_start p "test_scope2" s,
         Event.call_scope_end p s,
         Event.call_deinit p] := by
  exact ⟨_, _, rfl, rfl, rfl⟩

/-- Claim C5, counterexample: running the example at a concrete
implementation, `profiler_save` is called zero times, not exactly once, so it
is false that each of the five declared functions is invoked exactly once. -/
theorem example_main_does_not_call_save_once :
    ¬ ((mainRun unitImpl () 1 ["test"]).2.trace.countP
        (fun e => isSaveCall e) = 1) := by
  decide

/-- Claim C5 as amended: in every execution of the example program, each of
the four functions `profiler_init`, `profiler_scope_start`,
`profiler_scope_end` and `profiler_deinit` is invoked exactly once, while
`profiler_save` is never invoked. -/
theorem example_main_call_counts {S P : Type}
    (impl : ProfilerImpl S P) (s0 : S) (argc : Int) (argv : List String) :
    ((mainRun impl s0 argc argv).2.trace.countP (fun e => isInitCall e) = 1) ∧
    ((mainRun impl s0 argc argv).2.trace.countP (fun e => isScopeStartCall e) = 1) ∧
    ((mainRun impl s0 argc argv).2.trace.countP (fun e => isScopeEndCall e) = 1) ∧
    ((mainRun impl s0 argc argv).2.trace.countP (fun e => isDeinitCall e) = 1) ∧
    ((mainRun impl s0 argc argv).2.trace.countP (fun e => isSaveCall e) = 0) := by
  refine ⟨?_, ?_, ?_, ?_, ?_⟩ <;> rfl

/-- Claim C8: the example's `main` returns `0` on every run in which each
called profiler operation returns, for all values of `argc` and `argv` (in
the embedding every total implementation makes each operation return). -/
theorem example_main_returns_zero {S P : Type}
    (impl : ProfilerImpl S P) (s0 : S) (argc : Int) (argv : List String) :
    (mainRun impl s0 argc argv).2.ret = 0 := by
  rfl

/-- Claim C9: the behaviour of the example's `main` is independent of its
command-line arguments: for any two runs differing only in `argc`/`argv`,
the final state, the sequence of profiler calls with their arguments, and the
return value of `main` are identical. -/
theorem example_main_ignores_argc_argv {S P : Type}
    (impl : ProfilerImpl S P) (s0 : S)
    (argc1 : Int) (argv1 : List String) (argc2 : Int) (argv2 : List String) :
    mainRun impl s0 argc1 argv1 = mainRun impl s0 argc2 argv2 := by
  rfl

/-- Claim C10: the example performs no error or NULL checking: whatever value
`profiler_init` returns is forwarded unchanged as the profiler argument of
`profiler_scope_start`, `profiler_scope_end` and `profiler_deinit`, and
whatever value `profiler_scope_start` returns is forwarded unchanged as the
scope argument of `profiler_scope_end`; in particular an implementation whose
handles are NULL (`none`) has `none` forwarded everywhere. -/
theorem example_main_forwards_handles_unchecked {S P : Type}
    (impl : ProfilerImpl S P) (s0 : S) (argc : Int) (argv : List String) :
    ((mainRun impl s0 argc argv).2.trace.map profilerArgOf =
      [none, some (impl.profiler_init s0).2, some (impl.profiler_init s0).2,
       some (impl.profiler_init s0).2]) ∧
    ((mainRun impl s0 argc argv).2.trace.map scopeArgOf =
      [none, none,
       some (impl.profiler_scope_start (impl.profiler_init s0).1
         (impl.profiler_init s0).2 "test_scope2").2, none]) ∧
    ((mainRun nullImpl () argc argv).2.trace =
      [Event.call_init none,
       Event.call_scope_start none "test_scope2" none,
       Event.call_scope_end none none,
       Event.call_deinit none]) := by
  exact ⟨rfl, rfl, rfl⟩

/-- Ending a scope changes no scope's recorded owner: `spec_profiler_scope_end`
maps over the scope list touching only the `closed` flag. -/
lemma ownerOf_spec_scope_end (st : SpecState) (q e s : Nat) :
    ownerOf (spec_profiler_scope_end st q e) s = ownerOf st s := by
  rcases st with ⟨n, lv, scopes⟩
  simp only [ownerOf, spec_profiler_scope_end]
  induction scopes with
  | nil => rfl
  | cons a l ih =>
    rw [List.map_cons]
    by_cases he : (a.sid == e) = true
    · rw [if_pos he]
      by_cases hs : (a.sid == s) = true
      · rw [List.find?_cons, List.find?_cons]
        have hs2 : (({ a with closed := true } : SpecScope).sid == s) = true := hs
        rw [hs2]
        rfl
      · rw [List.find?_cons, List.find?_cons]
        have hs2 : (({ a with closed := true } : SpecScope).sid == s) = false :=
          Bool.eq_false_iff.mpr (fun hc => hs hc)
        rw [hs2]
        exact ih
    · rw [if_neg he]
      by_cases hs : (a.sid == s) = true
      · rw [List.find?_cons, List.find?_cons]
        rw [hs]
      · rw [List.find?_cons, List.find?_cons]
        rw [Bool.eq_false_iff.mpr (fun hc => hs hc)]
        exact ih

/-- After `spec_profiler_scope_end`, every scope whose handle is the ended one
is marked closed. -/
lemma spec_scope_end_closes (st : SpecState) (q e : Nat) :
    ((spec_profiler_scope_end st q e).scopes.all
      (fun sc => sc.sid != e || sc.closed)) = true := by
  rcases st with ⟨n, lv, scopes⟩
  simp only [spec_profiler_scope_end, List.all_map, List.all_eq_true]
  intro a _
  by_cases h : a.sid = e
  · simp [h]
  · simp [h]

/-- Claim C6: `profiler_scope_start` (modelled from the spec, the
implementation being absent from the repository), given a profiler handle and
a name, returns an opaque scope handle for every profiler handle, every name
string and every state — no precondition constrains name uniqueness, nesting
or caller — and the state afterwards records that handle as a scope
associated with that profiler and that name. -/
theorem scope_start_returns_scope_for_every_name
    (st : SpecState) (profiler : Nat) (nm : String) :
    (spec_profiler_scope_start st profiler nm).2 = st.nextId ∧
    ((spec_profiler_scope_start st profiler nm).1.scopes.find?
        (fun sc => sc.sid == (spec_profiler_scope_start st profiler nm).2)) =
      some ⟨st.nextId, profiler, nm, false⟩ := by
  refine ⟨rfl, ?_⟩
  simp [spec_profiler_scope_start, List.find?]

/-- Claim C7: every scope belongs to the profiler that started it and its
lifetime is delimited by the operations: `spec_profiler_scope_start` creates
it owned by the profiler argument and still open, `spec_profiler_scope_end`
closes it without changing any ownership, and the ownership relation is
preserved by every operation — `init` and `save` leave the scope records
unchanged, and `deinit` only removes the released profiler's own scopes,
keeping the surviving records intact. -/
theorem scope_ownership_preserved_by_every_operation
    (st : SpecState) (p q e s : Nat) (nm path : String) :
    ((spec_profiler_scope_start st p nm).1.scopes.head? =
      some ⟨st.nextId, p, nm, false⟩) ∧
    ownerOf (spec_profiler_scope_start st p nm).1
      (spec_profiler_scope_start st p nm).2 = some p ∧
    ownerOf (spec_profiler_scope_end st q e) s = ownerOf st s ∧
    ((spec_profiler_scope_end st q e).scopes.all
      (fun sc => sc.sid != e || sc.closed)) = true ∧
    ownerOf (spec_profiler_init st).1 s = ownerOf st s ∧
    (spec_profiler_save st q path).1 = st ∧
    List.Sublist ((spec_profiler_deinit st q).scopes) st.scopes ∧
    ((spec_profiler_deinit st q).scopes.all (fun sc => sc.owner != q)) = true := by
  refine ⟨rfl, ?_, ownerOf_spec_scope_end st q e s, spec_scope_end_closes st q e,
    rfl, rfl, ?_, ?_⟩
  · simp [ownerOf, spec_profiler_scope_start, List.find?]
  · exact List.filter_sublist st.scopes
  · simp only [spec_profiler_deinit, List.all_eq_true]
    intro a ha
    exact (List.mem_filter.mp ha).2

end AnneProfiler
